import Mathlib

/-!
Shallow embedding of the hik-camera-server ingestion/persistence/fanout core.

The SQLite schema (src/unnamed/part_000 lines 17-62, identical in
src/unnamed/part_001 lines 19-64) declares three tables:
  sites   (id INTEGER PRIMARY KEY AUTOINCREMENT, name TEXT, description TEXT, created_at)
  cameras (id, channelID TEXT NOT NULL, macAddress, name, description, site_id,
           status DEFAULT 'active', last_seen, created_at, UNIQUE(channelID))
  events  (id, channelID NOT NULL, dateTime NOT NULL, eventType NOT NULL, country,
           licensePlate NOT NULL, lane, direction, confidenceLevel, macAddress,
           licensePlateImage, vehicleImage, detectionImage, site_id, created_at)

Rows are modelled as structures; SQL NULL / JS undefined is `Option.none`;
AUTOINCREMENT ids are a `next*Id` counter starting at 1.  Each database
operation is a pure function on a `Store`; an operation that can reject its
promise returns an `Except SqlError` result paired with the store it leaves
behind (SQLite autocommits each single statement, so a later failure does not
undo an earlier statement unless the code opened an explicit transaction).
-/

namespace HikServer

/-- A row of the sites table.  `name` has no UNIQUE or NOT NULL constraint in
the schema (src/unnamed/part_001 lines 20-27). -/
structure SiteRow where
  id : Nat
  name : Option String
  description : Option String
deriving Repr, DecidableEq

/-- A row of the cameras table; `channelID` is NOT NULL and UNIQUE
(src/unnamed/part_000 lines 27-41). -/
structure CameraRow where
  id : Nat
  channelID : String
  macAddress : Option String
  name : Option String
  description : Option String
  site_id : Option Nat
  status : String
deriving Repr, DecidableEq

/-- A row of the events table; `channelID`, `dateTime`, `eventType` and
`licensePlate` are NOT NULL (src/unnamed/part_000 lines 43-62). -/
structure EventRow where
  id : Nat
  channelID : String
  dateTime : String
  eventType : String
  country : Option String
  licensePlate : String
  lane : Option String
  direction : Option String
  confidenceLevel : Option String
  macAddress : Option String
  licensePlateImage : Option String
  vehicleImage : Option String
  detectionImage : Option String
  site_id : Option Nat
deriving Repr, DecidableEq

/-- The durable state: the three tables plus the AUTOINCREMENT counters. -/
structure Store where
  sites : List SiteRow
  cameras : List CameraRow
  events : List EventRow
  nextSiteId : Nat
  nextCameraId : Nat
  nextEventId : Nat
deriving Repr, DecidableEq

/-- A freshly initialised database: empty tables, AUTOINCREMENT starts at 1. -/
def Store.empty : Store := ⟨[], [], [], 1, 1, 1⟩

/-- Error kinds a statement can reject with. -/
inductive SqlError where
  | notNullViolation
  | uniqueViolation
  | storage
  | noRow
deriving Repr, DecidableEq

/-- JavaScript truthiness of an optional string: `undefined`, `null` and the
empty string are falsy (used by every `if (!x)` validation in the handlers). -/
def jsTruthy : Option String → Bool
  | none => false
  | some s => !s.isEmpty

/-- The three image-reference slots of an ingestion payload
(`event.images` in src/server.js lines 963-967). -/
structure EventImages where
  licensePlate : Option String
  vehicle : Option String
  detection : Option String
deriving Repr, DecidableEq

/-- No images attached (the `event.images?.x` optional chains in insertEvent
yield undefined when `images` is absent, src/unnamed/part_000 lines 126-128). -/
def EventImages.none' : EventImages := ⟨none, none, none⟩

/-- The structured payload handed to `insertEvent` by the HTTP handlers.
Query parameters may be absent, hence every field is optional. -/
structure EventPayload where
  channelID : Option String
  dateTime : Option String
  eventType : Option String
  country : Option String
  licensePlate : Option String
  lane : Option String
  direction : Option String
  confidenceLevel : Option String
  macAddress : Option String
  images : EventImages
  site_id : Option Nat
deriving Repr, DecidableEq

/-- `INSERT OR IGNORE INTO cameras (channelID, macAddress) VALUES (?, ?)`
(src/unnamed/part_000 lines 96-105).  With OR IGNORE, a UNIQUE(channelID)
conflict — and likewise a NOT NULL violation when channelID is bound to
NULL — silently skips the row instead of erroring, so this statement never
rejects: it inserts a minimal row exactly when channelID is non-NULL and no
camera row with that channelID exists. -/
def insertOrIgnoreCamera (st : Store) (channelID macAddress : Option String) : Store :=
  match channelID with
  | none => st
  | some c =>
    if st.cameras.any (fun cam => cam.channelID == c) then st
    else { st with
            cameras := st.cameras ++
              [⟨st.nextCameraId, c, macAddress, none, none, none, "active"⟩],
            nextCameraId := st.nextCameraId + 1 }

/-- The plain `INSERT INTO events (...) VALUES (...)` statement shared by both
insertEvent versions (src/unnamed/part_000 lines 107-130).  It errors with a
NOT NULL violation when channelID, dateTime, eventType or licensePlate is
bound to NULL; otherwise it appends the row and reports the new rowid. -/
def insertEventRow (st : Store) (p : EventPayload) (siteId : Option Nat) :
    Except SqlError (Store × Nat) :=
  match p.channelID, p.dateTime, p.eventType, p.licensePlate with
  | some c, some d, some t, some l =>
      .ok ({ st with
              events := st.events ++
                [⟨st.nextEventId, c, d, t, p.country, l, p.lane, p.direction,
                  p.confidenceLevel, p.macAddress, p.images.licensePlate,
                  p.images.vehicle, p.images.detection, siteId⟩],
              nextEventId := st.nextEventId + 1 },
            st.nextEventId)
  | _, _, _, _ => .error .notNullViolation

/-- `insertEvent` of src/unnamed/part_000 lines 92-143: camera upsert first,
then the event insert (site_id bound to the literal null), with no enclosing
transaction — each statement autocommits, so when the event insert fails the
camera upsert is already durable.  The success callback is a regular
`function`, so `this.lastID` is the statement context's rowid of the new
event row, which the promise resolves with. -/
def insertEvent_v0 (st : Store) (p : EventPayload) : Except SqlError Nat × Store :=
  let st1 := insertOrIgnoreCamera st p.channelID p.macAddress
  match insertEventRow st1 p none with
  | .ok (st2, newId) => (.ok newId, st2)
  | .error e => (.error e, st1)

/-- `event.site_id || null` (src/unnamed/part_001 line 131): JavaScript `||`
treats 0 as falsy, so a site_id of 0 would be coerced to null. -/
def orNull : Option Nat → Option Nat
  | some 0 => none
  | x => x

/-- `insertEvent` of src/unnamed/part_001 lines 94-146: same camera upsert
then event insert (site_id bound to `event.site_id || null`), still with no
transaction.  Its success callback is an arrow function, so `this` is the
Database class instance (an EventEmitter), which has no `lastID` property:
on success the promise resolves with `undefined` — modelled as `none` — after
emitting the internal eventUpdate cue. -/
def insertEvent_v1 (st : Store) (p : EventPayload) :
    Except SqlError (Option Nat) × Store :=
  let st1 := insertOrIgnoreCamera st p.channelID p.macAddress
  match insertEventRow st1 p (orNull p.site_id) with
  | .ok (st2, _) => (.ok none, st2)
  | .error e => (.error e, st1)

/-- Internal cue topics emitted by the part_001 Database (an EventEmitter)
after a successful mutation. -/
def insertEvent_v1_emits (st : Store) (p : EventPayload) : List String :=
  match insertEvent_v1 st p with
  | (.ok _, _) => ["eventUpdate"]
  | (.error _, _) => []

/-- Whether `INSERT OR IGNORE INTO sites (name, description)` hits a conflict.
The sites table (src/unnamed/part_001 lines 20-27) declares no UNIQUE,
PRIMARY-KEY-on-name, CHECK or NOT NULL constraint on name or description, so
no conflict is ever possible and the insert always succeeds. -/
def sitesInsertConflicts (_st : Store) (_name _description : Option String) : Bool :=
  false

/-- `createOrGetSite(name, description)` of src/unnamed/part_001 lines
190-216: `INSERT OR IGNORE INTO sites (name, description) VALUES (?, ?)
RETURNING id`, resolving with the returned id when a row comes back, and
otherwise falling back to `SELECT id FROM sites WHERE name = ?`.  Because the
sites table has no uniqueness constraint the insert always succeeds and
always returns a row, so the fallback branch is unreachable and every call
appends a fresh row with a fresh id. -/
def createOrGetSite (st : Store) (name description : Option String) :
    Except SqlError Nat × Store :=
  if sitesInsertConflicts st name description then
    match st.sites.find? (fun s =>
        match name with
        | none => false
        | some n => s.name == some n) with
    | some row => (.ok row.id, st)
    | none => (.error .noRow, st)
  else
    (.ok st.nextSiteId,
     { st with
        sites := st.sites ++ [⟨st.nextSiteId, name, description⟩],
        nextSiteId := st.nextSiteId + 1 })

/-- Which of the statements inside `deleteSite`'s transaction fail, modelling
storage-level failures injected at each stage. -/
structure DeleteSiteFailures where
  beginFails : Bool
  deleteEventsFails : Bool
  deleteCamerasFails : Bool
  deleteSiteRowFails : Bool
  commitFails : Bool
deriving Repr, DecidableEq

/-- The failure-free execution. -/
def DeleteSiteFailures.clean : DeleteSiteFailures := ⟨false, false, false, false, false⟩

/-- `deleteSite(id)` (src/unnamed/part_000 lines 347-398, identical
transaction logic in src/unnamed/part_001 lines 237-289): BEGIN TRANSACTION,
then `DELETE FROM events WHERE site_id = ?`, `DELETE FROM cameras WHERE
site_id = ?`, `DELETE FROM sites WHERE id = ?`, then COMMIT, resolving with
the number of site rows deleted; any stage failure (or a COMMIT failure)
issues ROLLBACK, which restores the pre-transaction store, and rejects. -/
def deleteSite (f : DeleteSiteFailures) (st : Store) (id : Nat) :
    Except SqlError Nat × Store :=
  if f.beginFails then (.error .storage, st)
  else if f.deleteEventsFails then (.error .storage, st)
  else
    let st1 := { st with events := st.events.filter (fun e => !(e.site_id == some id)) }
    if f.deleteCamerasFails then (.error .storage, st)
    else
      let st2 := { st1 with cameras := st1.cameras.filter (fun c => !(c.site_id == some id)) }
      if f.deleteSiteRowFails then (.error .storage, st)
      else
        let changes := (st2.sites.filter (fun s => s.id == id)).length
        let st3 := { st2 with sites := st2.sites.filter (fun s => !(s.id == id)) }
        if f.commitFails then (.error .storage, st)
        else (.ok changes, st3)

/-- SQLite binary-collation comparison on TEXT, as used by `dateTime >= ?`,
`dateTime <= ?` and `ORDER BY dateTime DESC`. -/
def strLe (a b : String) : Bool := a < b || a == b

/-- First list is a prefix of the second. -/
def charsHasPfx : List Char → List Char → Bool
  | [], _ => true
  | _ :: _, [] => false
  | a :: as, b :: bs => a == b && charsHasPfx as bs

/-- First list occurs contiguously inside the second. -/
def charsContains (pat : List Char) : List Char → Bool
  | [] => pat.isEmpty
  | b :: bs => charsHasPfx pat (b :: bs) || charsContains pat bs

/-- SQL `LIKE '%pat%'`: substring containment. -/
def likeContains (s pat : String) : Bool := charsContains pat.data s.data

/-- The options object accepted by `getAllEvents` (src/unnamed/part_000 lines
145-185).  Callers may also pass a `siteId` field (src/server.js lines
834-840); the query builder never reads it. -/
structure EventQueryOptions where
  licensePlate : Option String := none
  dateFrom : Option String := none
  dateTo : Option String := none
  siteId : Option Nat := none
  limit : Option Nat := none
deriving Repr, DecidableEq

/-- One event row satisfies the WHERE clause `getAllEvents` builds: each
condition is added only when the option is JS-truthy (a missing or empty
string adds no condition). -/
def eventMatches (o : EventQueryOptions) (e : EventRow) : Bool :=
  (match o.licensePlate with
   | some p => if p.isEmpty then true else likeContains e.licensePlate p
   | none => true) &&
  (match o.dateFrom with
   | some d => if d.isEmpty then true else strLe d e.dateTime
   | none => true) &&
  (match o.dateTo with
   | some d => if d.isEmpty then true else strLe e.dateTime d
   | none => true)

/-- Insertion sort by dateTime descending, modelling `ORDER BY dateTime DESC`. -/
def insertByDateDesc (e : EventRow) : List EventRow → List EventRow
  | [] => [e]
  | x :: xs => if strLe x.dateTime e.dateTime then e :: x :: xs
               else x :: insertByDateDesc e xs

/-- Sort a result set by dateTime descending. -/
def sortByDateDesc : List EventRow → List EventRow
  | [] => []
  | x :: xs => insertByDateDesc x (sortByDateDesc xs)

/-- `getAllEvents(options)` (src/unnamed/part_000 lines 145-185): SELECT *
FROM events with LIKE/range conditions for the truthy options, ORDER BY
dateTime DESC, and LIMIT when `options.limit` is truthy (0 is falsy).  The
`siteId` field of the options is never consulted. -/
def getAllEvents (st : Store) (o : EventQueryOptions) : List EventRow :=
  let rows := sortByDateDesc (st.events.filter (eventMatches o))
  match o.limit with
  | some n => if n == 0 then rows else rows.take n
  | none => rows

/-- The filters object built by the site events page `webApp.get('/site/:id')`
(src/server.js lines 834-842): it forwards the page's query parameters, adds
the requested site's id as `siteId`, caps at 100 rows, and renders the rows
`getAllEvents` returns for it. -/
def sitePageEvents (st : Store) (siteId : Nat)
    (licensePlate dateFrom dateTo : Option String) : List EventRow :=
  getAllEvents st
    { licensePlate := licensePlate, dateFrom := dateFrom, dateTo := dateTo,
      siteId := some siteId, limit := some 100 }

/-- Aggregates returned by `getEventStats()` (src/unnamed/part_000 lines
243-263).  COUNT(DISTINCT site_id) skips NULLs. -/
structure EventStats where
  totalEvents : Nat
  uniqueVehicles : Nat
  activeChannels : Nat
  totalSites : Nat
  lastDetection : Option String
deriving Repr, DecidableEq

/-- `MAX(dateTime)` over a list of events (NULL on an empty table). -/
def maxDateTime (evs : List EventRow) : Option String :=
  evs.foldl (fun acc e =>
    match acc with
    | none => some e.dateTime
    | some m => if strLe m e.dateTime then some e.dateTime else some m) none

/-- `getEventStats()` of src/unnamed/part_000: total rows, distinct plates,
distinct channels, distinct non-NULL site_ids, latest dateTime. -/
def getEventStats (st : Store) : EventStats :=
  { totalEvents := st.events.length
    uniqueVehicles := (st.events.map (·.licensePlate)).dedup.length
    activeChannels := (st.events.map (·.channelID)).dedup.length
    totalSites := (st.events.filterMap (·.site_id)).dedup.length
    lastDetection := maxDateTime st.events }

/-- One row of `getSiteStats()` (src/unnamed/part_000 lines 214-241): per
site, the number of its events, their latest dateTime, and the vehicle image
of the most recent one. -/
structure SiteStatsRow where
  id : Nat
  name : Option String
  eventCount : Nat
  lastDetection : Option String
  lastVehicleImage : Option String
deriving Repr, DecidableEq

/-- `getSiteStats()` of src/unnamed/part_000: LEFT JOIN events on site_id,
grouped per site (order by name left as stored order; no claim depends on
row order here). -/
def getSiteStats (st : Store) : List SiteStatsRow :=
  st.sites.map (fun s =>
    let evs := st.events.filter (fun e => e.site_id == some s.id)
    { id := s.id, name := s.name, eventCount := evs.length,
      lastDetection := maxDateTime evs,
      lastVehicleImage := (sortByDateDesc evs).head?.bind (·.vehicleImage) })

/-- The query-string parameters an ingestion request can carry
(src/server.js lines 99-108; absent parameters are `undefined`). -/
structure Query where
  channelID : Option String := none
  dateTime : Option String := none
  eventType : Option String := none
  country : Option String := none
  licensePlate : Option String := none
  lane : Option String := none
  direction : Option String := none
  confidenceLevel : Option String := none
  macAddress : Option String := none
deriving Repr, DecidableEq

/-- Stored filenames of the multipart attachments an eventApp ingestion
request can carry, keyed by the multer field names of src/server.js lines
914-917 and 941-945. -/
structure EventFiles where
  licensePlatePictureJpg : Option String := none
  vehiclePictureJpg : Option String := none
  detectionPictureJpg : Option String := none
deriving Repr, DecidableEq

/-- A request carrying no attachments. -/
def EventFiles.noFiles : EventFiles := ⟨none, none, none⟩

/-- A handler's HTTP response, reduced to the status code and the eventId
field of a success body (absent on errors and on handlers that do not echo
an id). -/
structure HttpResponse where
  status : Nat
  eventId : Option Nat := none
deriving Repr, DecidableEq

/-- `handleVehicleDetection` of src/server.js lines 96-126: builds the event
payload straight from the query parameters — with no validation of any field
and no images object — calls insertEvent, and answers 200 with the new id on
success or 500 on any error.  (This build of server.js pairs with the
src/unnamed/part_000 database, whose getSiteStats/getEventStats field names
it renders.) -/
def handleVehicleDetection (st : Store) (q : Query) : HttpResponse × Store :=
  let p : EventPayload :=
    { channelID := q.channelID, dateTime := q.dateTime, eventType := q.eventType,
      country := q.country, licensePlate := q.licensePlate, lane := q.lane,
      direction := q.direction, confidenceLevel := q.confidenceLevel,
      macAddress := q.macAddress, images := EventImages.none', site_id := none }
  match insertEvent_v0 st p with
  | (.ok newId, st') => ({ status := 200, eventId := some newId }, st')
  | (.error _, st') => ({ status := 500 }, st')

/-- The `eventApp.post(['/', '/hik'])` handler of src/server.js lines
914-989: answers 400 when channelID, dateTime, eventType or licensePlate is
JS-falsy, otherwise maps the three `*Picture.jpg` upload fields into the
images object and calls insertEvent; 200 on success (the response body echoes
the event, not the id), 500 on a database error. -/
def eventAppPost (st : Store) (q : Query) (files : EventFiles) :
    HttpResponse × Store :=
  if !jsTruthy q.channelID || !jsTruthy q.dateTime ||
     !jsTruthy q.eventType || !jsTruthy q.licensePlate then
    ({ status := 400 }, st)
  else
    let p : EventPayload :=
      { channelID := q.channelID, dateTime := q.dateTime, eventType := q.eventType,
        country := q.country, licensePlate := q.licensePlate, lane := q.lane,
        direction := q.direction, confidenceLevel := q.confidenceLevel,
        macAddress := q.macAddress,
        images := ⟨files.licensePlatePictureJpg, files.vehiclePictureJpg,
                   files.detectionPictureJpg⟩,
        site_id := none }
    match insertEvent_v0 st p with
    | (.ok _, st') => ({ status := 200 }, st')
    | (.error _, st') => ({ status := 500 }, st')

/-- `handleVehicleDetection` of src/unnamed/part_001 lines 740-784: answers
400 when channelID, dateTime or licensePlate is JS-falsy — eventType is not
checked — otherwise calls the part_001 insertEvent; 200 with the resolved
value on success, and on a rejection `next(error)` reaches the error-handling
middleware, which answers 500. -/
def p1HandleVehicleDetection (st : Store) (q : Query) : HttpResponse × Store :=
  if !jsTruthy q.channelID || !jsTruthy q.dateTime || !jsTruthy q.licensePlate then
    ({ status := 400 }, st)
  else
    let p : EventPayload :=
      { channelID := q.channelID, dateTime := q.dateTime, eventType := q.eventType,
        country := q.country, licensePlate := q.licensePlate, lane := q.lane,
        direction := q.direction, confidenceLevel := q.confidenceLevel,
        macAddress := q.macAddress, images := EventImages.none', site_id := none }
    match insertEvent_v1 st p with
    | (.ok v, st') => ({ status := 200, eventId := v }, st')
    | (.error _, st') => ({ status := 500 }, st')

/-- A server-initiated WebSocket message as a connected client sees it:
either the full `dashboard_update` snapshot carrying aggregate stats and
per-site stats, or a bare change-notification cue object carrying only a
type tag. -/
inductive WsMessage where
  | dashboardUpdate (stats : EventStats) (sites : List SiteStatsRow)
  | cue (type : String)
deriving Repr, DecidableEq

/-- Whether a message is a full snapshot. -/
def WsMessage.isSnapshot : WsMessage → Bool
  | .dashboardUpdate _ _ => true
  | .cue _ => false

/-- `sendDashboardData(ws)` (src/server.js lines 57-65): fetches
getEventStats and getSiteStats and sends one `dashboard_update` message. -/
def sendDashboardData (st : Store) : WsMessage :=
  .dashboardUpdate (getEventStats st) (getSiteStats st)

/-- The messages one open client receives from src/server.js during a single
ingestion call: handleVehicleDetection's only fan-out is the
`wss.clients.forEach(... sendDashboardData(client))` loop after a successful
insert (lines 114-119), so a success delivers one full snapshot of the
post-insert store and a failure delivers nothing. -/
def serverJsIngestClientMessages (st : Store) (q : Query) : List WsMessage :=
  match handleVehicleDetection st q with
  | ({ status := 200, .. }, st') => [sendDashboardData st']
  | (_, _) => []

/-- The message src/server.js pushes to a client the moment its connection
opens (line 43): one full snapshot. -/
def serverJsConnectionOpenMessage (st : Store) : WsMessage :=
  sendDashboardData st

/-- The cue the part_001 servers broadcast for each internal Database
EventEmitter topic: `db.on('siteUpdate'| 'cameraUpdate'| 'eventUpdate')`
forwards `{ type: 'site_update' | 'camera_update' | 'event_update' }`
verbatim to every open client (src/unnamed/part_001 lines 666-676). -/
def p1ListenerMessage (topic : String) : WsMessage :=
  if topic == "siteUpdate" then .cue "site_update"
  else if topic == "cameraUpdate" then .cue "camera_update"
  else .cue "event_update"

/-- The messages one open client receives from the part_001 server during a
single ingestion call: the Database emits `eventUpdate` on a successful
insert (forwarded as a bare cue by the subscription above), and the handler
itself then calls `broadcastUpdate({ type: 'event_update' })`
(src/unnamed/part_001 lines 776-780) — another bare cue. -/
def p1IngestClientMessages (st : Store) (q : Query) : List WsMessage :=
  let p : EventPayload :=
    { channelID := q.channelID, dateTime := q.dateTime, eventType := q.eventType,
      country := q.country, licensePlate := q.licensePlate, lane := q.lane,
      direction := q.direction, confidenceLevel := q.confidenceLevel,
      macAddress := q.macAddress, images := EventImages.none', site_id := none }
  if !jsTruthy q.channelID || !jsTruthy q.dateTime || !jsTruthy q.licensePlate then
    []
  else
    ((insertEvent_v1_emits st p).map p1ListenerMessage) ++
    (match insertEvent_v1 st p with
     | (.ok _, _) => [.cue "event_update"]
     | (.error _, _) => [])

/-- What the `wss.on('connection')` handler of src/server.js lines 39-54 sets
up for each client: an immediate sendDashboardData call, a
`setInterval(... , 5000)` that calls sendDashboardData unconditionally, and a
close handler that clears the interval. -/
structure ConnectionHandler where
  sendsInitialSnapshot : Bool
  intervalMs : Nat
  clearsIntervalOnClose : Bool
deriving Repr, DecidableEq

/-- The connection handler src/server.js installs. -/
def serverJsConnectionHandler : ConnectionHandler := ⟨true, 5000, true⟩

/-- Whether the session pushes a snapshot at millisecond `t` after entering
the Open state, under the timer model in which a `setInterval(f, d)` started
at time 0 fires at every positive multiple of `d`.  The interval callback
invokes sendDashboardData unconditionally, so the push times do not depend on
the store-mutation history `mutations` (passed here only to state that
independence). -/
def pushesSnapshotAt (h : ConnectionHandler) (_mutations : Nat → Bool) (t : Nat) : Bool :=
  if t == 0 then h.sendsInitialSnapshot
  else h.intervalMs != 0 && t % h.intervalMs == 0

/-- A well-formed detection payload (the §8 scenario values: channelID
CAM-07, a timestamp, eventType detection, plate ABC123, nothing else). -/
def samplePayload : EventPayload :=
  { channelID := some "CAM-07", dateTime := some "2024-01-01T10:00:00Z",
    eventType := some "detection", country := none,
    licensePlate := some "ABC123", lane := none, direction := none,
    confidenceLevel := none, macAddress := none,
    images := EventImages.none', site_id := none }

/-- The same detection with the license plate missing and a fresh channel. -/
def plateMissingPayload : EventPayload :=
  { channelID := some "CAM-09", dateTime := some "2024-01-01T10:00:00Z",
    eventType := some "detection", country := none, licensePlate := none,
    lane := none, direction := none, confidenceLevel := none,
    macAddress := none, images := EventImages.none', site_id := none }

/-- The plate-missing detection as an inbound request's query parameters. -/
def plateMissingQuery : Query :=
  { channelID := some "CAM-09", dateTime := some "2024-01-01T10:00:00Z",
    eventType := some "detection", licensePlate := none }

/-- The camera upsert statement never touches the events table. -/
theorem insertOrIgnoreCamera_events (st : Store) (c m : Option String) :
    (insertOrIgnoreCamera st c m).events = st.events := by
  unfold insertOrIgnoreCamera
  cases c with
  | none => rfl
  | some c => dsimp only; split <;> rfl

/-- The camera upsert statement never touches the sites table. -/
theorem insertOrIgnoreCamera_sites (st : Store) (c m : Option String) :
    (insertOrIgnoreCamera st c m).sites = st.sites := by
  unfold insertOrIgnoreCamera
  cases c with
  | none => rfl
  | some c => dsimp only; split <;> rfl

/-- The event insert statement never touches the cameras table, so the
cameras an insertEvent call leaves behind are exactly those its initial
upsert produced. -/
theorem insertEvent_v0_cameras (st : Store) (p : EventPayload) :
    (insertEvent_v0 st p).snd.cameras =
      (insertOrIgnoreCamera st p.channelID p.macAddress).cameras := by
  obtain ⟨f1, f2, f3, f4, f5, f6, f7, f8, f9, fi, fs⟩ := p
  unfold insertEvent_v0 insertEventRow
  dsimp only
  cases f1 <;> cases f2 <;> cases f3 <;> cases f5 <;> rfl

/-- C1.  The spec claims `createOrGetSite` is idempotent on the site name:
two calls with the same name return the same site id and leave exactly one
row with that name.  On the code this fails: the sites table declares no
UNIQUE constraint on name, so the `INSERT OR IGNORE ... RETURNING id` of
createOrGetSite never hits a conflict — from an empty store, two calls with
name "Main St" return the distinct ids 1 and 2 and leave two site rows with
that name (the conflict-then-lookup fallback branch is unreachable). -/
theorem c1_createOrGetSite_not_idempotent :
    (createOrGetSite Store.empty (some "Main St") none).fst = .ok 1 ∧
    (createOrGetSite (createOrGetSite Store.empty (some "Main St") none).snd
        (some "Main St") none).fst = .ok 2 ∧
    ((createOrGetSite (createOrGetSite Store.empty (some "Main St") none).snd
        (some "Main St") none).snd.sites.filter
      (fun s => s.name == some "Main St")).length = 2 := by
  refine ⟨rfl, rfl, ?_⟩
  decide

/-- C5.  The spec claims insertEvent returns the new event row's id on
success.  The part_001 version resolves `this.lastID` from an arrow-function
callback, where `this` is the Database EventEmitter instance (which has no
lastID property), so it resolves `undefined` (modelled `.ok none`) even
though an event row with id 1 was inserted; the part_000 version, whose
callback is a regular `function`, returns the id 1 as specified. -/
theorem c5_insertEvent_v1_returns_undefined :
    (insertEvent_v1 Store.empty samplePayload).fst = .ok none ∧
    ((insertEvent_v1 Store.empty samplePayload).snd.events.map (·.id)) = [1] ∧
    (insertEvent_v0 Store.empty samplePayload).fst = .ok 1 := by
  refine ⟨rfl, ?_, rfl⟩
  decide

/-- C2 counterexample.  The claim says an ingestion missing the license
plate creates neither a camera row nor an event row and leaves the store
unchanged.  On the code, a payload with a fresh channel identifier and no
plate is rejected by the event insert, yet the camera upsert has already
autocommitted: the store now holds a camera row for CAM-09, and the HTTP
handler reports 500 with that row still present. -/
theorem c2_camera_row_leaks_on_rejection :
    (insertEvent_v0 Store.empty plateMissingPayload).fst.isOk = false ∧
    ((insertEvent_v0 Store.empty plateMissingPayload).snd.cameras.map
        (·.channelID)) = ["CAM-09"] ∧
    (insertEvent_v0 Store.empty plateMissingPayload).snd ≠ Store.empty ∧
    (handleVehicleDetection Store.empty plateMissingQuery).fst.status = 500 ∧
    ((handleVehicleDetection Store.empty plateMissingQuery).snd.cameras.length) = 1 := by
  refine ⟨rfl, ?_, ?_, rfl, ?_⟩ <;> decide

/-- C2 as amended.  For every ingestion payload missing the license plate or
the event timestamp, the event insert rejects and no event row is created;
but the two statements are not one atomic unit: the camera upsert runs first
with no transaction, so the store the failed call leaves behind is exactly
the store after the camera upsert (a camera row for an unseen channel
identifier persists). -/
theorem c2_rejection_keeps_camera_upsert (st : Store) (p : EventPayload)
    (h : p.licensePlate = none ∨ p.dateTime = none) :
    (insertEvent_v0 st p).fst.isOk = false ∧
    (insertEvent_v0 st p).snd.events = st.events ∧
    (insertEvent_v0 st p).snd = insertOrIgnoreCamera st p.channelID p.macAddress := by
  obtain ⟨f1, f2, f3, f4, f5, f6, f7, f8, f9, fi, fs⟩ := p
  dsimp only at h ⊢
  rcases h with h | h
  · subst h
    unfold insertEvent_v0 insertEventRow
    dsimp only
    cases f1 <;> cases f2 <;> cases f3 <;>
      simp [insertOrIgnoreCamera_events, Except.isOk, Except.toBool]
  · subst h
    unfold insertEvent_v0 insertEventRow
    dsimp only
    cases f1 <;> cases f3 <;> cases f5 <;>
      simp [insertOrIgnoreCamera_events, Except.isOk, Except.toBool]

/-- C2 witness: the amended theorem applied to the concrete plate-missing
payload on the empty store. -/
theorem c2_rejection_keeps_camera_upsert_witness :
    (plateMissingPayload.licensePlate = none ∨ plateMissingPayload.dateTime = none) ∧
    ((insertEvent_v0 Store.empty plateMissingPayload).fst.isOk = false ∧
     (insertEvent_v0 Store.empty plateMissingPayload).snd.events = Store.empty.events ∧
     (insertEvent_v0 Store.empty plateMissingPayload).snd =
       insertOrIgnoreCamera Store.empty plateMissingPayload.channelID
         plateMissingPayload.macAddress) :=
  ⟨Or.inl rfl,
   c2_rejection_keeps_camera_upsert Store.empty plateMissingPayload (Or.inl rfl)⟩

/-- C3.  `deleteSite(id)` runs as one transaction deleting dependent events,
then dependent cameras, then the site row: whenever the call resolves, the
resulting store has zero events, zero cameras, and zero site rows carrying
that site identifier; and whenever any stage (or BEGIN or COMMIT) fails, the
ROLLBACK leaves the store exactly as it was before the call. -/
theorem c3_deleteSite_atomic_cascade (f : DeleteSiteFailures) (st : Store) (id : Nat) :
    ((deleteSite f st id).fst.isOk = true →
       (deleteSite f st id).snd.events.all (fun e => !(e.site_id == some id)) = true ∧
       (deleteSite f st id).snd.cameras.all (fun c => !(c.site_id == some id)) = true ∧
       (deleteSite f st id).snd.sites.all (fun s => !(s.id == id)) = true) ∧
    ((deleteSite f st id).fst.isOk = false → (deleteSite f st id).snd = st) := by
  unfold deleteSite
  split
  · simp [Except.isOk, Except.toBool]
  · split
    · simp [Except.isOk, Except.toBool]
    · split
      · simp [Except.isOk, Except.toBool]
      · split
        · simp [Except.isOk, Except.toBool]
        · split
          · simp [Except.isOk, Except.toBool]
          · refine ⟨fun _ => ⟨?_, ?_, ?_⟩, fun hc => by simp [Except.isOk, Except.toBool] at hc⟩ <;>
              · simp only [List.all_eq_true, List.mem_filter]
                intro x hx
                exact hx.2

/-- A store holding the site Depot A (id 1) with one assigned camera and one
assigned event, plus an unrelated site, camera and event under site 2. -/
def c3Store : Store :=
  { sites := [⟨1, some "Depot A", none⟩, ⟨2, some "Depot B", none⟩],
    cameras := [⟨1, "CAM-07", none, none, none, some 1, "active"⟩,
                ⟨2, "CAM-08", none, none, none, some 2, "active"⟩],
    events := [⟨1, "CAM-07", "2024-01-01T10:00:00Z", "detection", none, "ABC123",
                none, none, none, none, none, none, none, some 1⟩,
               ⟨2, "CAM-08", "2024-01-02T10:00:00Z", "detection", none, "XYZ789",
                none, none, none, none, none, none, none, some 2⟩],
    nextSiteId := 3, nextCameraId := 3, nextEventId := 3 }

/-- C3 witness: on the concrete two-site store, the failure-free run of
deleteSite 1 succeeds and leaves nothing referencing site 1, and a run whose
cameras-delete stage fails leaves the store untouched. -/
theorem c3_deleteSite_atomic_cascade_witness :
    ((deleteSite DeleteSiteFailures.clean c3Store 1).fst.isOk = true ∧
     ((deleteSite DeleteSiteFailures.clean c3Store 1).snd.events.all
        (fun e => !(e.site_id == some 1)) = true ∧
      (deleteSite DeleteSiteFailures.clean c3Store 1).snd.cameras.all
        (fun c => !(c.site_id == some 1)) = true ∧
      (deleteSite DeleteSiteFailures.clean c3Store 1).snd.sites.all
        (fun s => !(s.id == 1)) = true)) ∧
    ((deleteSite ⟨false, false, true, false, false⟩ c3Store 1).fst.isOk = false ∧
     (deleteSite ⟨false, false, true, false, false⟩ c3Store 1).snd = c3Store) :=
  ⟨⟨by decide,
    (c3_deleteSite_atomic_cascade DeleteSiteFailures.clean c3Store 1).1 (by decide)⟩,
   ⟨by decide,
    (c3_deleteSite_atomic_cascade ⟨false, false, true, false, false⟩ c3Store 1).2 (by decide)⟩⟩

/-- The camera upsert is a no-op whenever some camera row already carries the
channel identifier being inserted (the UNIQUE(channelID) conflict is ignored). -/
theorem upsert_noop_of_mem (st : Store) (cid m : Option String) (cam : CameraRow)
    (hmem : cam ∈ st.cameras) (hc : cid = some cam.channelID) :
    insertOrIgnoreCamera st cid m = st := by
  have hany : st.cameras.any (fun c => c.channelID == cam.channelID) = true :=
    List.any_eq_true.mpr ⟨cam, hmem, by simp⟩
  rw [hc]
  unfold insertOrIgnoreCamera
  simp [hany]

/-- A valid insertEvent call appends exactly one event row. -/
theorem insertEvent_v0_events_length (st : Store) (p : EventPayload) (c d t l : String)
    (hc : p.channelID = some c) (hd : p.dateTime = some d)
    (ht : p.eventType = some t) (hl : p.licensePlate = some l) :
    (insertEvent_v0 st p).snd.events.length = st.events.length + 1 := by
  simp [insertEvent_v0, insertEventRow, hc, hd, ht, hl, insertOrIgnoreCamera_events]

/-- C9.  When a camera row with the payload's channel identifier already
exists, the upsert run during event ingestion is a no-op: the whole store —
in particular the existing row's name, description, site assignment and
every other field — is left unchanged, and the full insertEvent call leaves
the cameras table exactly as it found it. -/
theorem c9_camera_upsert_noop (st : Store) (p : EventPayload) (cam : CameraRow)
    (hmem : cam ∈ st.cameras) (hc : p.channelID = some cam.channelID) :
    insertOrIgnoreCamera st p.channelID p.macAddress = st ∧
    (insertEvent_v0 st p).snd.cameras = st.cameras := by
  have h1 := upsert_noop_of_mem st p.channelID p.macAddress cam hmem hc
  refine ⟨h1, ?_⟩
  rw [insertEvent_v0_cameras, h1]

/-- A store holding one fully configured camera for channel CAM-07. -/
def c9Store : Store :=
  { sites := [⟨1, some "Depot A", none⟩],
    cameras := [⟨1, "CAM-07", some "aa:bb", some "Gate cam", some "north gate",
                 some 1, "active"⟩],
    events := [], nextSiteId := 2, nextCameraId := 2, nextEventId := 1 }

/-- C9 witness: on a store whose camera 1 (channel CAM-07) is named, described
and assigned to site 1, an ingestion payload for CAM-07 leaves the store and
the cameras table unchanged. -/
theorem c9_camera_upsert_noop_witness :
    (⟨1, "CAM-07", some "aa:bb", some "Gate cam", some "north gate",
       some 1, "active"⟩ : CameraRow) ∈ c9Store.cameras ∧
    samplePayload.channelID = some "CAM-07" ∧
    (insertOrIgnoreCamera c9Store samplePayload.channelID samplePayload.macAddress = c9Store ∧
     (insertEvent_v0 c9Store samplePayload).snd.cameras = c9Store.cameras) :=
  ⟨by decide, rfl,
   c9_camera_upsert_noop c9Store samplePayload
     ⟨1, "CAM-07", some "aa:bb", some "Gate cam", some "north gate", some 1, "active"⟩
     (by decide) rfl⟩

/-- C4.  Channel identifiers are unique and the upsert keeps them so: from a
store whose cameras have pairwise-distinct channel identifiers and none equal
to `c`, ingesting two valid events for channel `c` creates exactly one camera
row with that channel (the second upsert is a no-op, so the cameras table
grows by exactly one row) while creating two event rows, and the pairwise
uniqueness of channel identifiers is preserved. -/
theorem c4_one_camera_two_events (st : Store) (p q : EventPayload)
    (c d₁ t₁ l₁ d₂ t₂ l₂ : String)
    (hpc : p.channelID = some c) (hpd : p.dateTime = some d₁)
    (hpt : p.eventType = some t₁) (hpl : p.licensePlate = some l₁)
    (hqc : q.channelID = some c) (hqd : q.dateTime = some d₂)
    (hqt : q.eventType = some t₂) (hql : q.licensePlate = some l₂)
    (hfresh : st.cameras.all (fun cam => !(cam.channelID == c)) = true)
    (huniq : st.cameras.Pairwise (fun a b => a.channelID ≠ b.channelID)) :
    ((insertEvent_v0 (insertEvent_v0 st p).snd q).snd.cameras.filter
        (fun cam => cam.channelID == c)).length = 1 ∧
    (insertEvent_v0 (insertEvent_v0 st p).snd q).snd.cameras.length =
      st.cameras.length + 1 ∧
    (insertEvent_v0 (insertEvent_v0 st p).snd q).snd.events.length =
      st.events.length + 2 ∧
    (insertEvent_v0 (insertEvent_v0 st p).snd q).snd.cameras.Pairwise
      (fun a b => a.channelID ≠ b.channelID) := by
  have hfresh' : ∀ cam ∈ st.cameras, (cam.channelID == c) = false := by
    intro cam hcam
    have := List.all_eq_true.mp hfresh cam hcam
    simpa using this
  have hany : st.cameras.any (fun cam => cam.channelID == c) = false := by
    rw [List.any_eq_false]
    intro cam hcam
    simp [hfresh' cam hcam]
  have hcam1 : (insertEvent_v0 st p).snd.cameras =
      st.cameras ++ [⟨st.nextCameraId, c, p.macAddress, none, none, none, "active"⟩] := by
    rw [insertEvent_v0_cameras, hpc]
    unfold insertOrIgnoreCamera
    simp [hany]
  have hmem : (⟨st.nextCameraId, c, p.macAddress, none, none, none, "active"⟩ : CameraRow) ∈
      (insertEvent_v0 st p).snd.cameras := by
    rw [hcam1]; simp
  have hnoop2 : insertOrIgnoreCamera (insertEvent_v0 st p).snd q.channelID q.macAddress =
      (insertEvent_v0 st p).snd :=
    upsert_noop_of_mem _ _ _ _ hmem (by rw [hqc])
  have hcam2 : (insertEvent_v0 (insertEvent_v0 st p).snd q).snd.cameras =
      (insertEvent_v0 st p).snd.cameras := by
    rw [insertEvent_v0_cameras, hnoop2]
  have hfilter : st.cameras.filter (fun cam => cam.channelID == c) = [] := by
    rw [List.filter_eq_nil_iff]
    intro cam hcam
    simp [hfresh' cam hcam]
  refine ⟨?_, ?_, ?_, ?_⟩
  · rw [hcam2, hcam1, List.filter_append, hfilter]
    simp
  · rw [hcam2, hcam1]
    simp
  · rw [insertEvent_v0_events_length _ q c d₂ t₂ l₂ hqc hqd hqt hql,
        insertEvent_v0_events_length _ p c d₁ t₁ l₁ hpc hpd hpt hpl]
  · rw [hcam2, hcam1]
    refine List.pairwise_append.mpr ⟨huniq, by simp, ?_⟩
    intro a ha b hb
    simp only [List.mem_singleton] at hb
    subst hb
    intro hEq
    have := hfresh' a ha
    simp [hEq] at this

/-- C4 witness: from the empty store, ingesting the CAM-07 sample detection
twice yields one CAM-07 camera row, one camera row in total, two event rows,
and pairwise-distinct channel identifiers. -/
theorem c4_one_camera_two_events_witness :
    (samplePayload.channelID = some "CAM-07" ∧
     Store.empty.cameras.all (fun cam => !(cam.channelID == "CAM-07")) = true ∧
     Store.empty.cameras.Pairwise (fun a b => a.channelID ≠ b.channelID)) ∧
    (((insertEvent_v0 (insertEvent_v0 Store.empty samplePayload).snd
          samplePayload).snd.cameras.filter
        (fun cam => cam.channelID == "CAM-07")).length = 1 ∧
     (insertEvent_v0 (insertEvent_v0 Store.empty samplePayload).snd
        samplePayload).snd.cameras.length = Store.empty.cameras.length + 1 ∧
     (insertEvent_v0 (insertEvent_v0 Store.empty samplePayload).snd
        samplePayload).snd.events.length = Store.empty.events.length + 2 ∧
     (insertEvent_v0 (insertEvent_v0 Store.empty samplePayload).snd
        samplePayload).snd.cameras.Pairwise (fun a b => a.channelID ≠ b.channelID)) :=
  ⟨⟨rfl, by decide, List.Pairwise.nil⟩,
   c4_one_camera_two_events Store.empty samplePayload samplePayload
     "CAM-07" "2024-01-01T10:00:00Z" "detection" "ABC123"
     "2024-01-01T10:00:00Z" "detection" "ABC123"
     rfl rfl rfl rfl rfl rfl rfl rfl (by decide) List.Pairwise.nil⟩

/-- With any of the four NOT NULL event columns bound to NULL, the part_000
insertEvent rejects, leaving behind exactly the store of its camera upsert. -/
theorem insertEvent_v0_error_of_missing (st : Store) (p : EventPayload)
    (h : p.channelID = none ∨ p.dateTime = none ∨
         p.eventType = none ∨ p.licensePlate = none) :
    insertEvent_v0 st p =
      (.error .notNullViolation, insertOrIgnoreCamera st p.channelID p.macAddress) := by
  obtain ⟨f1, f2, f3, f4, f5, f6, f7, f8, f9, fi, fs⟩ := p
  cases f1 <;> cases f2 <;> cases f3 <;> cases f5 <;>
    simp_all [insertEvent_v0, insertEventRow]

/-- Likewise for the part_001 insertEvent. -/
theorem insertEvent_v1_error_of_missing (st : Store) (p : EventPayload)
    (h : p.channelID = none ∨ p.dateTime = none ∨
         p.eventType = none ∨ p.licensePlate = none) :
    insertEvent_v1 st p =
      (.error .notNullViolation, insertOrIgnoreCamera st p.channelID p.macAddress) := by
  obtain ⟨f1, f2, f3, f4, f5, f6, f7, f8, f9, fi, fs⟩ := p
  cases f1 <;> cases f2 <;> cases f3 <;> cases f5 <;>
    simp_all [insertEvent_v1, insertEventRow]

/-- C6 counterexample.  The claim says every ingestion endpoint answers 400
when the license plate is absent.  The hikApp endpoint of src/server.js
(handleVehicleDetection, mounted at both / and /hik) performs no validation:
on the plate-missing request it lets insertEvent reject and answers 500, not
400. -/
theorem c6_hik_endpoint_answers_500 :
    (handleVehicleDetection Store.empty plateMissingQuery).fst.status = 500 ∧
    ¬ (handleVehicleDetection Store.empty plateMissingQuery).fst.status = 400 := by
  exact ⟨rfl, by decide⟩

/-- C6 as amended.  For an inbound ingestion request missing the channel
identifier, timestamp, event type or license plate: the eventApp endpoint of
src/server.js rejects it with 400 and an unchanged store; the hikApp
handleVehicleDetection endpoint of src/server.js does no validation and
reports 500 for it; and the part_001 handler answers 400 only when the
channel identifier, timestamp or license plate is missing, answering 500 for
a request whose only missing required field is the event type. -/
theorem c6_validation_varies_per_endpoint (st : Store) (q : Query) (files : EventFiles) :
    ((q.channelID = none ∨ q.dateTime = none ∨
      q.eventType = none ∨ q.licensePlate = none) →
       (eventAppPost st q files).fst.status = 400 ∧ (eventAppPost st q files).snd = st) ∧
    ((q.channelID = none ∨ q.dateTime = none ∨
      q.eventType = none ∨ q.licensePlate = none) →
       (handleVehicleDetection st q).fst.status = 500) ∧
    ((q.channelID = none ∨ q.dateTime = none ∨ q.licensePlate = none) →
       (p1HandleVehicleDetection st q).fst.status = 400 ∧
       (p1HandleVehicleDetection st q).snd = st) ∧
    ((jsTruthy q.channelID = true ∧ jsTruthy q.dateTime = true ∧
      jsTruthy q.licensePlate = true ∧ q.eventType = none) →
       (p1HandleVehicleDetection st q).fst.status = 500) := by
  refine ⟨?_, ?_, ?_, ?_⟩
  · intro h
    rcases h with h | h | h | h <;> simp [eventAppPost, h, jsTruthy]
  · intro h
    have := insertEvent_v0_error_of_missing st
      { channelID := q.channelID, dateTime := q.dateTime, eventType := q.eventType,
        country := q.country, licensePlate := q.licensePlate, lane := q.lane,
        direction := q.direction, confidenceLevel := q.confidenceLevel,
        macAddress := q.macAddress, images := EventImages.none', site_id := none }
      (by simpa using h)
    simp [handleVehicleDetection, this]
  · intro h
    rcases h with h | h | h <;> simp [p1HandleVehicleDetection, h, jsTruthy]
  · rintro ⟨h1, h2, h3, h4⟩
    have := insertEvent_v1_error_of_missing st
      { channelID := q.channelID, dateTime := q.dateTime, eventType := q.eventType,
        country := q.country, licensePlate := q.licensePlate, lane := q.lane,
        direction := q.direction, confidenceLevel := q.confidenceLevel,
        macAddress := q.macAddress, images := EventImages.none', site_id := none }
      (by simp [h4])
    simp [p1HandleVehicleDetection, h1, h2, h3, this]

/-- A request missing only the event type. -/
def eventTypeMissingQuery : Query :=
  { channelID := some "CAM-07", dateTime := some "2024-01-01T10:00:00Z",
    eventType := none, licensePlate := some "ABC123" }

/-- C6 witness: the amended theorem applied to the plate-missing request
(eventApp: 400 with store untouched; server.js hik handler: 500) and to the
event-type-missing request (part_001 handler: 500). -/
theorem c6_validation_varies_per_endpoint_witness :
    (plateMissingQuery.channelID = none ∨ plateMissingQuery.dateTime = none ∨
     plateMissingQuery.eventType = none ∨ plateMissingQuery.licensePlate = none) ∧
    ((eventAppPost Store.empty plateMissingQuery EventFiles.noFiles).fst.status = 400 ∧
     (eventAppPost Store.empty plateMissingQuery EventFiles.noFiles).snd = Store.empty) ∧
    (handleVehicleDetection Store.empty plateMissingQuery).fst.status = 500 ∧
    ((jsTruthy eventTypeMissingQuery.channelID = true ∧
      jsTruthy eventTypeMissingQuery.dateTime = true ∧
      jsTruthy eventTypeMissingQuery.licensePlate = true ∧
      eventTypeMissingQuery.eventType = none) ∧
     (p1HandleVehicleDetection Store.empty eventTypeMissingQuery).fst.status = 500) :=
  ⟨Or.inr (Or.inr (Or.inr rfl)),
   (c6_validation_varies_per_endpoint Store.empty plateMissingQuery EventFiles.noFiles).1
     (Or.inr (Or.inr (Or.inr rfl))),
   (c6_validation_varies_per_endpoint Store.empty plateMissingQuery EventFiles.noFiles).2.1
     (Or.inr (Or.inr (Or.inr rfl))),
   ⟨rfl, rfl, rfl, rfl⟩,
   (c6_validation_varies_per_endpoint Store.empty eventTypeMissingQuery EventFiles.noFiles).2.2.2
     ⟨rfl, rfl, rfl, rfl⟩⟩

/-- A fully valid detection request for channel CAM-07. -/
def sampleQuery : Query :=
  { channelID := some "CAM-07", dateTime := some "2024-01-01T10:00:00Z",
    eventType := some "detection", licensePlate := some "ABC123" }

/-- C7 counterexample.  The claim says bare change-notification cues never
reach a client.  In the part_001 server, one successful ingestion delivers
two bare `event_update` cue objects to every open client (one from the
`db.on('eventUpdate')` subscription that forwards the Database's emit, one
from the handler's own broadcastUpdate call) — and no full snapshot. -/
theorem c7_bare_cues_reach_clients :
    p1IngestClientMessages Store.empty sampleQuery =
      [.cue "event_update", .cue "event_update"] ∧
    (p1IngestClientMessages Store.empty sampleQuery).all WsMessage.isSnapshot = false := by
  exact ⟨rfl, rfl⟩

/-- C7 as amended.  In src/server.js every server-initiated message a client
receives is a full `dashboard_update` snapshot — the snapshot pushed on
connection open and the snapshots pushed after an ingestion — but in the
part_001 server variant the internal site_update/camera_update/event_update
cues are broadcast directly to connected clients, none of which is a
snapshot. -/
theorem c7_serverJs_clients_get_snapshots (st : Store) (q : Query) :
    (serverJsIngestClientMessages st q).all WsMessage.isSnapshot = true ∧
    (serverJsConnectionOpenMessage st).isSnapshot = true ∧
    (∀ topic, (p1ListenerMessage topic).isSnapshot = false) := by
  refine ⟨?_, rfl, ?_⟩
  · unfold serverJsIngestClientMessages
    split
    · rfl
    · rfl
  · intro topic
    unfold p1ListenerMessage
    split_ifs <;> rfl

/-- C8.  The connection handler src/server.js installs pushes one full
snapshot immediately on entering the Open state (time 0), and — because its
5000 ms setInterval callback sends unconditionally, independent of any
mutation history — every 5000 ms window [t, t+5000) contains at least one
snapshot push. -/
theorem c8_snapshot_every_interval (mutations : Nat → Bool) :
    pushesSnapshotAt serverJsConnectionHandler mutations 0 = true ∧
    ∀ t : Nat, ∃ u : Nat, t ≤ u ∧ u < t + 5000 ∧
      pushesSnapshotAt serverJsConnectionHandler mutations u = true := by
  refine ⟨rfl, fun t => ?_⟩
  refine ⟨5000 * ((t + 4999) / 5000), by omega, by omega, ?_⟩
  by_cases h : 5000 * ((t + 4999) / 5000) = 0
  · simp [pushesSnapshotAt, serverJsConnectionHandler, h]
  · simp [pushesSnapshotAt, serverJsConnectionHandler, h, Nat.mul_mod_right]

/-- C10.  The result of getAllEvents is independent of the `siteId` field of
its options — the query builder never reads it — so the site events page,
which passes the requested site's id in its filters, renders the same rows
whichever site was requested: events of every site, not only the requested
one. -/
theorem c10_getAllEvents_ignores_siteId (st : Store) (o : EventQueryOptions)
    (s : Option Nat) :
    getAllEvents st { o with siteId := s } = getAllEvents st o ∧
    ∀ (sid sid' : Nat) (lp df dt : Option String),
      sitePageEvents st sid lp df dt = sitePageEvents st sid' lp df dt := by
  obtain ⟨a, b, c, d, e⟩ := o
  exact ⟨rfl, fun _ _ _ _ _ => rfl⟩

end HikServer
